import Mathlib

/-!
Verification of the Internly backend (src/backend/app/main.py and
src/backend/app/api/routes.py): a shallow embedding of the three route
handlers, the CORS configuration, and the database-client boundary,
together with proofs of the boundary contract.
-/

/-- JSON values, the payloads exchanged by the handlers. -/
inductive Json where
  | null : Json
  | bool : Bool → Json
  | num : Int → Json
  | str : String → Json
  | arr : List Json → Json
  | obj : List (String × Json) → Json

/-- A test record: an arbitrary key-value mapping (a Python `dict`). -/
abbrev Record := List (String × Json)

/-- Result object returned by the database client's `execute()`:
it exposes a `.data` field holding a row list. -/
structure ExecuteResult where
  data : List Record

/-- Outcome of a database call: either an `ExecuteResult`, or a raised
exception carrying its string representation `str(e)`. -/
abbrev DbOutcome := Except String ExecuteResult

/-- An HTTP response produced by a handler: either a JSON body (status 200),
or an `HTTPException(status_code, detail)`. -/
inductive Response where
  | ok : Json → Response
  | httpError : Nat → String → Response

/-- A call issued against the database client. -/
inductive DbCall where
  | select : String → String → DbCall
  | insert : String → Record → DbCall

/-- `GET /` handler (routes.py, `root`): returns the static payload. -/
def root : Response :=
  Response.ok (Json.obj [("message", Json.str "Backend connected successfully!")])

/-- The database call issued by `get_test_records`:
`supabase.table("test_records").select("*")`. -/
def get_test_records_call : DbCall :=
  DbCall.select "test_records" "*"

/-- `GET /test` handler (routes.py, `get_test_records`), as a function of the
outcome of its database call: on success returns
`{"success": True, "data": data.data, "count": len(data.data)}`; on an
exception `e` raises `HTTPException(500, f"Database error: {str(e)}")`. -/
def get_test_records (outcome : DbOutcome) : Response :=
  match outcome with
  | Except.ok res =>
      Response.ok (Json.obj
        [("success", Json.bool true),
         ("data", Json.arr (res.data.map Json.obj)),
         ("count", Json.num res.data.length)])
  | Except.error e => Response.httpError 500 ("Database error: " ++ e)

/-- The database call issued by `add_test_record`:
`supabase.table("test_records").insert(record)` — the request body is passed
verbatim. -/
def add_test_record_call (record : Record) : DbCall :=
  DbCall.insert "test_records" record

/-- `POST /test` handler (routes.py, `add_test_record`), as a function of the
request body and the outcome of its database call: on success returns
`{"success": True, "data": response.data}`; on an exception `e` raises
`HTTPException(500, f"Database error: {str(e)}")`. -/
def add_test_record (_record : Record) (outcome : DbOutcome) : Response :=
  match outcome with
  | Except.ok res =>
      Response.ok (Json.obj
        [("success", Json.bool true),
         ("data", Json.arr (res.data.map Json.obj))])
  | Except.error e => Response.httpError 500 ("Database error: " ++ e)

/-- Whether a database outcome is a raised exception. -/
def dbRaised (outcome : DbOutcome) : Bool :=
  match outcome with
  | Except.ok _ => false
  | Except.error _ => true

/-- Whether a response is a raised `HTTPException` (an error response). -/
def isHttpErrorResp (r : Response) : Bool :=
  match r with
  | Response.ok _ => false
  | Response.httpError _ _ => true

/-- Field lookup in a JSON object; `none` on non-objects. -/
def jsonField (j : Json) (k : String) : Option Json :=
  match j with
  | Json.obj kvs => kvs.lookup k
  | _ => none

/-- Field lookup in the JSON body of a success response. -/
def responseField (r : Response) (k : String) : Option Json :=
  match r with
  | Response.ok body => jsonField body k
  | Response.httpError _ _ => none

/-- The `"data"` row list of a response, when present and a JSON array. -/
def responseData (r : Response) : Option (List Json) :=
  match responseField r "data" with
  | some (Json.arr xs) => some xs
  | _ => none

/-- The `"count"` value of a response, when present and a JSON number. -/
def responseCount (r : Response) : Option Int :=
  match responseField r "count" with
  | some (Json.num n) => some n
  | _ => none

/-- The `"success"` value of a response, when present. -/
def responseSuccess (r : Response) : Option Json :=
  responseField r "success"

/-- Modelled from the spec: the managed database service's table-select
("requests all rows from the collection"); the client code under
`app/services/database.py` is not in src/. Returns every stored row. -/
def dbSelectAll (db : List Record) : ExecuteResult :=
  ⟨db⟩

/-- Modelled from the spec: the managed database service's table-insert
("inserts it verbatim into the collection, returns the inserted row(s)");
the client code under `app/services/database.py` is not in src/. Appends
the record and reports the inserted row. -/
def dbInsert (db : List Record) (r : Record) : ExecuteResult × List Record :=
  (⟨[r]⟩, db ++ [r])

/-- Modelled from the spec: executing a database call against a database
state, returning the `ExecuteResult` and the updated state. -/
def applyCall (db : List Record) (c : DbCall) : ExecuteResult × List Record :=
  match c with
  | DbCall.select _ _ => (dbSelectAll db, db)
  | DbCall.insert _ r => dbInsert db r

/-- An incoming HTTP request for one of the three routes. -/
inductive Request where
  | getRoot : Request
  | getTest : Request
  | postTest : Record → Request

/-- Full server state: the external database plus whatever other application
state `σ` the process carries (the handlers never touch it). -/
structure SystemState (σ : Type) where
  appExtra : σ
  db : List Record

/-- One request-response cycle: route the request to its handler, perform its
database call (or observe the injected failure `failure`), and produce the
response together with the resulting server state. -/
def dispatch (σ : Type) (s : SystemState σ) (req : Request)
    (failure : Option String) : Response × SystemState σ :=
  match req with
  | Request.getRoot => (root, s)
  | Request.getTest =>
      match failure with
      | some e => (get_test_records (Except.error e), s)
      | none =>
          let r := applyCall s.db get_test_records_call
          (get_test_records (Except.ok r.1), { s with db := r.2 })
  | Request.postTest record =>
      match failure with
      | some e => (add_test_record record (Except.error e), s)
      | none =>
          let r := applyCall s.db (add_test_record_call record)
          (add_test_record record (Except.ok r.1), { s with db := r.2 })

/-- CORS middleware configuration (main.py, `app.add_middleware`). -/
structure CORSConfig where
  allow_origins : List String
  allow_credentials : Bool
  allow_methods : List String
  allow_headers : List String

/-- The configuration installed in main.py. -/
def corsMiddlewareConfig : CORSConfig :=
  { allow_origins := ["http://localhost:3000"]
    allow_credentials := true
    allow_methods := ["*"]
    allow_headers := ["*"] }

/-- Modelled from the spec: the CORS middleware admits an origin when it is
listed (or when the wildcard is listed). -/
def originAllowed (cfg : CORSConfig) (origin : String) : Bool :=
  cfg.allow_origins.contains "*" || cfg.allow_origins.contains origin

/-- Modelled from the spec: the CORS middleware admits a method when it is
listed or the wildcard is listed. -/
def methodAllowed (cfg : CORSConfig) (m : String) : Bool :=
  cfg.allow_methods.contains "*" || cfg.allow_methods.contains m

/-- Modelled from the spec: the CORS middleware admits a header when it is
listed or the wildcard is listed. -/
def headerAllowed (cfg : CORSConfig) (h : String) : Bool :=
  cfg.allow_headers.contains "*" || cfg.allow_headers.contains h

/-- Claim C1: for every database select result, `GET /test` returns
`{"success": bool, "data": rows, "count": n}` where `data` is the row list
returned by the database client and `count` equals the length of `data`. -/
theorem claim_C1 (rows : List Record) :
    get_test_records (Except.ok ⟨rows⟩) =
      Response.ok (Json.obj
        [("success", Json.bool true),
         ("data", Json.arr (rows.map Json.obj)),
         ("count", Json.num rows.length)]) ∧
    responseData (get_test_records (Except.ok ⟨rows⟩)) = some (rows.map Json.obj) ∧
    responseCount (get_test_records (Except.ok ⟨rows⟩)) =
      some ((rows.map Json.obj).length) := by
  refine ⟨rfl, ?_, ?_⟩ <;>
    simp [get_test_records, responseData, responseCount, responseField, jsonField,
      List.lookup]

/-- Claim C2: every exception raised by the database client during select
(`GET /test`) or insert (`POST /test`) yields an HTTP error with status 500
whose detail contains "Database error:" and embeds the exception message,
and the handler raises an error if and only if the database call raised. -/
theorem claim_C2 (e : String) (record : Record) :
    (get_test_records (Except.error e) =
      Response.httpError 500 ("Database error: " ++ e)) ∧
    (add_test_record record (Except.error e) =
      Response.httpError 500 ("Database error: " ++ e)) ∧
    (∀ outcome : DbOutcome,
      isHttpErrorResp (get_test_records outcome) = dbRaised outcome) ∧
    (∀ outcome : DbOutcome,
      isHttpErrorResp (add_test_record record outcome) = dbRaised outcome) := by
  refine ⟨rfl, rfl, ?_, ?_⟩ <;>
    intro outcome <;> cases outcome <;> rfl

/-- Claim C3: `POST /test` passes the request body verbatim to the database
client's insert on the "test_records" collection, and on success returns
`{"success": bool, "data": rows}` where `data` is the row list reported by
the insert call. -/
theorem claim_C3 (record : Record) (rows : List Record) :
    add_test_record_call record = DbCall.insert "test_records" record ∧
    add_test_record record (Except.ok ⟨rows⟩) =
      Response.ok (Json.obj
        [("success", Json.bool true),
         ("data", Json.arr (rows.map Json.obj))]) ∧
    responseData (add_test_record record (Except.ok ⟨rows⟩)) =
      some (rows.map Json.obj) := by
  refine ⟨rfl, rfl, ?_⟩
  simp [add_test_record, responseData, responseField, jsonField, List.lookup]

/-- Claim C5: `GET /` always returns exactly
`{"message": "Backend connected successfully!"}`; it reads no state and is
never an error response. -/
theorem claim_C5 :
    root = Response.ok
      (Json.obj [("message", Json.str "Backend connected successfully!")]) ∧
    isHttpErrorResp root = false := by
  exact ⟨rfl, rfl⟩

/-- Claim C8: in every non-error response of `GET /test` and `POST /test`
the "success" field is the literal boolean True, and error responses carry
no "success" field at all, so no code path returns success = False. -/
theorem claim_C8 (res : ExecuteResult) (e : String) (record : Record) :
    responseSuccess (get_test_records (Except.ok res)) = some (Json.bool true) ∧
    responseSuccess (add_test_record record (Except.ok res)) =
      some (Json.bool true) ∧
    responseSuccess (get_test_records (Except.error e)) = none ∧
    responseSuccess (add_test_record record (Except.error e)) = none := by
  refine ⟨?_, ?_, rfl, rfl⟩ <;>
    simp [get_test_records, add_test_record, responseSuccess, responseField,
      jsonField, List.lookup]

/-- Claim C9: on every database failure in `GET /test` or `POST /test` the
error detail is exactly the string "Database error: " concatenated with the
exception's string representation. -/
theorem claim_C9 (e : String) (record : Record) :
    get_test_records (Except.error e) =
      Response.httpError 500 ("Database error: " ++ e) ∧
    add_test_record record (Except.error e) =
      Response.httpError 500 ("Database error: " ++ e) := by
  exact ⟨rfl, rfl⟩

/-- Claim C10: handlers are deterministic in their inputs: equal database
outcomes give identical `GET /test` responses, and equal bodies with equal
outcomes give identical `POST /test` responses. -/
theorem claim_C10 (o₁ o₂ : DbOutcome) (b₁ b₂ : Record) :
    (o₁ = o₂ → get_test_records o₁ = get_test_records o₂) ∧
    (b₁ = b₂ → o₁ = o₂ → add_test_record b₁ o₁ = add_test_record b₂ o₂) := by
  constructor
  · intro h; rw [h]
  · intro h h'; rw [h, h']

/-- Witness for claim C10 at concrete inputs. -/
theorem claim_C10_witness :
    (Except.error "boom" : DbOutcome) = Except.error "boom" ∧
    ([] : Record) = ([] : Record) ∧
    get_test_records (Except.error "boom") =
      get_test_records (Except.error "boom") ∧
    add_test_record [] (Except.error "boom") =
      add_test_record [] (Except.error "boom") := by
  exact ⟨rfl, rfl,
    (claim_C10 (Except.error "boom") (Except.error "boom") [] []).1 rfl,
    (claim_C10 (Except.error "boom") (Except.error "boom") [] []).2 rfl rfl⟩

/-- Claim C4: a successful `POST /test` of a record followed by a successful
`GET /test` yields a data list including the inserted record, and the count
is one greater than a `GET /test` before the insert would have returned. -/
theorem claim_C4 (db : List Record) (rec : Record) :
    (∃ xs, responseData ((dispatch Unit
        ((dispatch Unit ⟨(), db⟩ (Request.postTest rec) none).2)
        Request.getTest none).1) = some xs ∧ Json.obj rec ∈ xs) ∧
    responseCount ((dispatch Unit
        ((dispatch Unit ⟨(), db⟩ (Request.postTest rec) none).2)
        Request.getTest none).1) = some ((db.length : Int) + 1) ∧
    responseCount ((dispatch Unit ⟨(), db⟩ Request.getTest none).1) =
      some ((db.length : Int)) := by
  refine ⟨⟨(db ++ [rec]).map Json.obj, ?_, ?_⟩, ?_, ?_⟩ <;>
    simp [dispatch, applyCall, dbInsert, dbSelectAll, get_test_records_call,
      add_test_record_call, get_test_records, add_test_record, responseData,
      responseCount, responseField, jsonField, List.lookup]

/-- Claim C6: the cross-origin configuration allows requests only from the
single fixed origin "http://localhost:3000", allows all methods and all
headers, and enables credentials. -/
theorem claim_C6 :
    corsMiddlewareConfig.allow_origins = ["http://localhost:3000"] ∧
    corsMiddlewareConfig.allow_credentials = true ∧
    corsMiddlewareConfig.allow_methods = ["*"] ∧
    corsMiddlewareConfig.allow_headers = ["*"] ∧
    (∀ origin, originAllowed corsMiddlewareConfig origin = true ↔
      origin = "http://localhost:3000") ∧
    (∀ m, methodAllowed corsMiddlewareConfig m = true) ∧
    (∀ h, headerAllowed corsMiddlewareConfig h = true) := by
  refine ⟨rfl, rfl, rfl, rfl, ?_, ?_, ?_⟩
  · intro origin
    have hrw : originAllowed corsMiddlewareConfig origin =
        (origin == "http://localhost:3000") := by
      cases h : origin == "http://localhost:3000" <;>
        simp [originAllowed, corsMiddlewareConfig, List.contains, List.elem, h]
    rw [hrw]
    exact beq_iff_eq
  · intro m
    simp [methodAllowed, corsMiddlewareConfig, List.contains, List.elem]
  · intro hd
    simp [headerAllowed, corsMiddlewareConfig, List.contains, List.elem]

/-- Witness for claim C6: the fixed origin itself is allowed. -/
theorem claim_C6_witness :
    originAllowed corsMiddlewareConfig "http://localhost:3000" = true := by
  exact (claim_C6.2.2.2.2.1 "http://localhost:3000").mpr rfl

/-- Claim C7: handlers are stateless: across every request, including
failing ones, all application state other than the external database is
unchanged. -/
theorem claim_C7 (σ : Type) (s : SystemState σ) (req : Request)
    (failure : Option String) :
    ((dispatch σ s req failure).2).appExtra = s.appExtra := by
  cases req <;> cases failure <;> rfl
